import Mathlib

/-!
Verification of the Student Management System's validation and persistence
layer (models.py, db.py, utils.py), as a shallow embedding.

Python strings are modelled as lists of Unicode code points; the case
mappings (upper / lower / title) are modelled on the ASCII range, which is
the range the validation patterns constrain.  `re.match` patterns are
translated to decidable functions on code-point lists; the `$` anchor's
allowance for one trailing newline never fires because every pattern in the
source is applied to a stripped string.
-/

set_option linter.unusedVariables false

namespace StudentMgmt

/-- A Python string: its list of Unicode code points. -/
abbrev PyStr := List Nat

/-- Code points of a Lean string literal, for writing concrete inputs. -/
def pystr (s : String) : PyStr := s.data.map Char.toNat

/-- Decoding, used only to render stored values inside error messages. -/
def PyStr.render (v : PyStr) : String := String.mk (v.map Char.ofNat)

/-- The whitespace set of Python's str.strip() / str.isspace(): ASCII
whitespace, the C0/C1 separators, and the Unicode space characters. -/
def pyIsSpace (n : Nat) : Bool :=
  (9 ≤ n && n ≤ 13) || (28 ≤ n && n ≤ 31) || n == 32 || n == 133 || n == 160 ||
  n == 5760 || (8192 ≤ n && n ≤ 8202) || n == 8232 || n == 8233 || n == 8239 ||
  n == 8287 || n == 12288

/-- Python str.strip(): drop whitespace from both ends. -/
def pyStrip (s : PyStr) : PyStr :=
  ((s.dropWhile pyIsSpace).reverse.dropWhile pyIsSpace).reverse

def isAsciiUpper (n : Nat) : Bool := 65 ≤ n && n ≤ 90

def isAsciiLower (n : Nat) : Bool := 97 ≤ n && n ≤ 122

def isAsciiDigit (n : Nat) : Bool := 48 ≤ n && n ≤ 57

def isAsciiAlpha (n : Nat) : Bool := isAsciiUpper n || isAsciiLower n

/-- One character of Python str.upper() (ASCII range). -/
def pyUpperChar (n : Nat) : Nat := if isAsciiLower n then n - 32 else n

/-- One character of Python str.lower() (ASCII range). -/
def pyLowerChar (n : Nat) : Nat := if isAsciiUpper n then n + 32 else n

def pyUpper (s : PyStr) : PyStr := s.map pyUpperChar

def pyLower (s : PyStr) : PyStr := s.map pyLowerChar

/-- One character of Python str.title(): a letter after a letter is
lowercased, any other letter is uppercased, everything else is kept. -/
def pyTitleChar (prev : Bool) (c : Nat) : Nat :=
  if isAsciiAlpha c then (if prev then pyLowerChar c else pyUpperChar c) else c

/-- Python str.title() (ASCII range); the Boolean carries whether the
previous character was a letter. -/
def pyTitleAux : Bool → PyStr → PyStr
  | _, [] => []
  | prev, c :: rest => pyTitleChar prev c :: pyTitleAux (isAsciiAlpha c) rest

def pyTitle (s : PyStr) : PyStr := pyTitleAux false s

/-- Character class of the roll pattern `[A-Z0-9-_]`. -/
def isRollChar (n : Nat) : Bool := isAsciiUpper n || isAsciiDigit n || n == 45 || n == 95

/-- re.match of the roll pattern: one or more characters of the class,
anchored at both ends. -/
def rollMatch (s : PyStr) : Bool := !s.isEmpty && s.all isRollChar

/-- Character class of the email pattern's local part `[a-zA-Z0-9._%+-]`. -/
def isLocalChar (n : Nat) : Bool :=
  isAsciiAlpha n || isAsciiDigit n || n == 46 || n == 95 || n == 37 || n == 43 || n == 45

/-- Character class of the email pattern's domain `[a-zA-Z0-9.-]`. -/
def isDomainChar (n : Nat) : Bool := isAsciiAlpha n || isAsciiDigit n || n == 46 || n == 45

/-- The part of the email pattern after the at sign:
`[a-zA-Z0-9.-]+\.[a-zA-Z]{2,}` anchored at the end.  Because the suffix after
the pattern's dot is all letters (so holds no dot), the dot the pattern
consumes is necessarily the string's last dot. -/
def domainMatch (s : PyStr) : Bool :=
  match s.reverse.span (fun n => !(n == 46)) with
  | (sufRev, 46 :: preRev) =>
      2 ≤ sufRev.length && sufRev.all isAsciiAlpha &&
        !preRev.isEmpty && preRev.all isDomainChar
  | _ => false

/-- re.match of the email pattern `[a-zA-Z0-9._%+-]+@` then the domain part,
anchored at both ends.  Neither class holds the at sign, so the split is at
the first at sign. -/
def emailMatch (s : PyStr) : Bool :=
  match s.span (fun n => !(n == 64)) with
  | (localPart, 64 :: rest) =>
      !localPart.isEmpty && localPart.all isLocalChar && domainMatch rest
  | _ => false

/-- Character class of the phone pattern `[0-9\s\-\(\)]`. -/
def isPhoneChar (n : Nat) : Bool :=
  isAsciiDigit n || pyIsSpace n || n == 45 || n == 40 || n == 41

/-- re.match of the phone pattern: an optional leading plus sign, then 7 to 15
characters of the class, anchored at both ends. -/
def phoneMatch (s : PyStr) : Bool :=
  let body := match s with
    | 43 :: rest => rest
    | _ => s
  7 ≤ body.length && body.length ≤ 15 && body.all isPhoneChar

/-- Student._validate_name: empty check, then strip().title(). -/
def validate_name (name : PyStr) : Except String PyStr :=
  if name = [] ∨ pyStrip name = [] then .error "Name cannot be empty"
  else .ok (pyTitle (pyStrip name))

/-- Student._validate_roll: empty check, then strip().upper(), then the
pattern. -/
def validate_roll (roll : PyStr) : Except String PyStr :=
  if roll = [] ∨ pyStrip roll = [] then .error "Roll number cannot be empty"
  else
    let r := pyUpper (pyStrip roll)
    if rollMatch r then .ok r
    else .error "Roll number can only contain letters, numbers, hyphens, and underscores"

/-- Student._validate_department: empty check, then strip().title(). -/
def validate_department (department : PyStr) : Except String PyStr :=
  if department = [] ∨ pyStrip department = [] then .error "Department cannot be empty"
  else .ok (pyTitle (pyStrip department))

/-- Student._validate_email: empty check, then strip().lower(), then the
pattern. -/
def validate_email (email : PyStr) : Except String PyStr :=
  if email = [] ∨ pyStrip email = [] then .error "Email cannot be empty"
  else
    let e := pyLower (pyStrip email)
    if emailMatch e then .ok e else .error "Invalid email format"

/-- Student._validate_phone: the empty string short-circuits to "not
provided"; otherwise strip(), then the pattern. -/
def validate_phone (phone : PyStr) : Except String PyStr :=
  if phone = [] then .ok []
  else
    let p := pyStrip phone
    if phoneMatch p then .ok p else .error "Invalid phone number format"

/-- A fully validated Student (models.py).  All five field values are the
normalized ones the validators produced. -/
structure Student where
  id : Option Nat
  name : PyStr
  roll : PyStr
  department : PyStr
  email : PyStr
  phone : PyStr
deriving DecidableEq, Repr

instance {ε α : Type} [DecidableEq ε] [DecidableEq α] : DecidableEq (Except ε α) := fun x y =>
  match x, y with
  | .error a, .error b =>
      if h : a = b then isTrue (by rw [h]) else isFalse (by simp [h])
  | .error _, .ok _ => isFalse (by simp)
  | .ok _, .error _ => isFalse (by simp)
  | .ok a, .ok b =>
      if h : a = b then isTrue (by rw [h]) else isFalse (by simp [h])

/-- Student.__init__: validates the fields in the order name, roll,
department, email, phone; the first failing validator's message is the
ValueError the constructor raises. -/
def validate_student (name roll department email phone : PyStr)
    (student_id : Option Nat := none) : Except String Student :=
  match validate_name name with
  | .error m => .error m
  | .ok n =>
    match validate_roll roll with
    | .error m => .error m
    | .ok r =>
      match validate_department department with
      | .error m => .error m
      | .ok d =>
        match validate_email email with
        | .error m => .error m
        | .ok e =>
          match validate_phone phone with
          | .error m => .error m
          | .ok p => .ok ⟨student_id, n, r, d, e, p⟩

/-- Spec side (C2): the name rule's message when violated, none otherwise. -/
def name_rule_error (name : PyStr) : Option String :=
  if pyStrip name = [] then some "Name cannot be empty" else none

/-- Spec side (C2): the roll rules in order — empty check, then the pattern
on the normalized (trimmed, uppercased) value. -/
def roll_rule_error (roll : PyStr) : Option String :=
  if pyStrip roll = [] then some "Roll number cannot be empty"
  else if rollMatch (pyUpper (pyStrip roll)) then none
  else some "Roll number can only contain letters, numbers, hyphens, and underscores"

/-- Spec side (C2): the department rule's message when violated. -/
def department_rule_error (department : PyStr) : Option String :=
  if pyStrip department = [] then some "Department cannot be empty" else none

/-- Spec side (C2): the email rules in order — empty check, then the pattern
on the normalized (trimmed, lowercased) value. -/
def email_rule_error (email : PyStr) : Option String :=
  if pyStrip email = [] then some "Email cannot be empty"
  else if emailMatch (pyLower (pyStrip email)) then none
  else some "Invalid email format"

/-- Spec side (C2): the phone rules — empty means "not provided", otherwise
the pattern on the trimmed value. -/
def phone_rule_error (phone : PyStr) : Option String :=
  if phone = [] then none
  else if phoneMatch (pyStrip phone) then none
  else some "Invalid phone number format"

/-- Spec side (C2): the message of the first violated rule in the fixed
order name, roll, department, email, phone; none when no rule is violated. -/
def first_rule_error (name roll department email phone : PyStr) : Option String :=
  match name_rule_error name with
  | some m => some m
  | none =>
    match roll_rule_error roll with
    | some m => some m
    | none =>
      match department_rule_error department with
      | some m => some m
      | none =>
        match email_rule_error email with
        | some m => some m
        | none => phone_rule_error phone

/-- A raw CSV row as handed to CSVHandler.validate_csv_data: the cleaned
string fields of one student_data dictionary. -/
structure RawRow where
  name : PyStr
  roll : PyStr
  department : PyStr
  email : PyStr
  phone : PyStr
deriving DecidableEq, Repr

/-- The temporary Student construction validate_csv_data performs on one
row (phone defaulted to "", no id). -/
def rowStudent (row : RawRow) : Except String Student :=
  validate_student row.name row.roll row.department row.email row.phone none

/-- The loop of CSVHandler.validate_csv_data: the row counter i and the
seen_rolls / seen_emails sets are the loop's state; each row is validated by
constructing a Student, a ValueError is recorded as "Row i: message", and a
roll or email already seen in an earlier row of the batch is recorded as a
duplicate-in-import-data error. -/
def validate_csv_aux : List RawRow → Nat → List PyStr → List PyStr → List String
  | [], _, _, _ => []
  | row :: rest, i, seenRolls, seenEmails =>
    match rowStudent row with
    | .error m =>
        ("Row " ++ toString i ++ ": " ++ m) ::
          validate_csv_aux rest (i + 1) seenRolls seenEmails
    | .ok st =>
        let rollErrs := if st.roll ∈ seenRolls then
            ["Row " ++ toString i ++ ": Duplicate roll number '" ++ st.roll.render ++
              "' in import data"]
          else []
        let seenRolls' := if st.roll ∈ seenRolls then seenRolls else st.roll :: seenRolls
        let emailErrs := if st.email ∈ seenEmails then
            ["Row " ++ toString i ++ ": Duplicate email '" ++ st.email.render ++
              "' in import data"]
          else []
        let seenEmails' := if st.email ∈ seenEmails then seenEmails else st.email :: seenEmails
        rollErrs ++ emailErrs ++ validate_csv_aux rest (i + 1) seenRolls' seenEmails'

/-- CSVHandler.validate_csv_data: rows are numbered from 1 and the seen sets
start empty. -/
def validate_csv_data (rows : List RawRow) : List String :=
  validate_csv_aux rows 1 [] []

/-- Spec side (C3/C10): the error strings row number i contributes on its
own, given the rolls and emails seen in earlier rows of the batch. -/
def rowErrors (i : Nat) (row : RawRow) (seen : List PyStr × List PyStr) : List String :=
  match rowStudent row with
  | .error m => ["Row " ++ toString i ++ ": " ++ m]
  | .ok st =>
      (if st.roll ∈ seen.1 then
        ["Row " ++ toString i ++ ": Duplicate roll number '" ++ st.roll.render ++
          "' in import data"]
      else []) ++
      (if st.email ∈ seen.2 then
        ["Row " ++ toString i ++ ": Duplicate email '" ++ st.email.render ++
          "' in import data"]
      else [])

/-- Spec side (C3/C10): how one row extends the seen-rolls / seen-emails
state; a row that fails validation leaves the state unchanged. -/
def advanceSeen (seen : List PyStr × List PyStr) (row : RawRow) : List PyStr × List PyStr :=
  match rowStudent row with
  | .error _ => seen
  | .ok st =>
      (if st.roll ∈ seen.1 then seen.1 else st.roll :: seen.1,
       if st.email ∈ seen.2 then seen.2 else st.email :: seen.2)

/-- Spec side (C3/C10): the seen state after a prefix of the batch. -/
def seenAfter (seen : List PyStr × List PyStr) (rows : List RawRow) :
    List PyStr × List PyStr :=
  rows.foldl advanceSeen seen

/-- A row of the students table (db.py schema). -/
structure StudentRow where
  id : Nat
  name : PyStr
  roll : PyStr
  department : PyStr
  email : PyStr
  phone : PyStr
  created_at : Nat
  updated_at : Nat
deriving DecidableEq, Repr

/-- A row of the users table (db.py schema). -/
structure UserRow where
  id : Nat
  username : PyStr
  password : PyStr
  created_at : Nat
deriving DecidableEq, Repr

/-- The persistent store: both tables plus each table's AUTOINCREMENT
counter (SQLite's AUTOINCREMENT never reuses an id, so a running counter is
the exact model). -/
structure DBState where
  students : List StudentRow
  next_student_id : Nat
  users : List UserRow
  next_user_id : Nat
deriving DecidableEq, Repr

/-- A freshly created database file: empty tables, rowids starting at 1. -/
def emptyDB : DBState := ⟨[], 1, [], 1⟩

/-- Database.initialize_database: CREATE TABLE / INDEX IF NOT EXISTS are
no-ops on the model's always-present tables; then the default admin user is
inserted iff SELECT COUNT(*) FROM users returns 0. -/
def init_database (db : DBState) (now : Nat) : DBState :=
  if db.users.length = 0 then
    { db with
        users := db.users ++ [⟨db.next_user_id, pystr "admin", pystr "admin123", now⟩],
        next_user_id := db.next_user_id + 1 }
  else db

/-- Database.get_user_count: SELECT COUNT(*) FROM users. -/
def get_user_count (db : DBState) : Nat := db.users.length

/-- Database.add_student: duplicate-roll check first, duplicate-email check
second, then INSERT; returns the cursor's lastrowid. -/
def add_student (db : DBState) (s : Student) (now : Nat) : Except String (Nat × DBState) :=
  if db.students.any (fun r => r.roll == s.roll) then
    .error ("Student with roll number '" ++ s.roll.render ++ "' already exists")
  else if db.students.any (fun r => r.email == s.email) then
    .error ("Student with email '" ++ s.email.render ++ "' already exists")
  else
    let sid := db.next_student_id
    .ok (sid, { db with
        students := db.students ++ [⟨sid, s.name, s.roll, s.department, s.email, s.phone, now, now⟩],
        next_student_id := sid + 1 })

/-- Database.update_student: existence check on the student's id (a SQL
comparison with NULL matches nothing), duplicate checks excluding the
record's own id, then UPDATE of all mutable fields plus updated_at; returns
cursor.rowcount > 0. -/
def update_student (db : DBState) (s : Student) (now : Nat) : Except String (Bool × DBState) :=
  if ¬ db.students.any (fun r => s.id == some r.id) then
    .error "Student not found"
  else if db.students.any (fun r => r.roll == s.roll && s.id != some r.id) then
    .error ("Student with roll number '" ++ s.roll.render ++ "' already exists")
  else if db.students.any (fun r => r.email == s.email && s.id != some r.id) then
    .error ("Student with email '" ++ s.email.render ++ "' already exists")
  else
    let matched := db.students.filter (fun r => s.id == some r.id)
    .ok (decide (0 < matched.length), { db with
        students := db.students.map (fun r =>
          if s.id == some r.id then
            { r with name := s.name, roll := s.roll, department := s.department,
                     email := s.email, phone := s.phone, updated_at := now }
          else r) })

/-- Database.delete_student: DELETE FROM students WHERE id = ?; returns
cursor.rowcount > 0, i.e. whether any row was removed. -/
def delete_student (db : DBState) (student_id : Nat) : Bool × DBState :=
  let deleted := (db.students.filter (fun r => r.id == student_id)).length
  (decide (0 < deleted),
   { db with students := db.students.filter (fun r => !(r.id == student_id)) })

/-- Python string comparison (sorted(...)): lexicographic on code points. -/
def pyLe : PyStr → PyStr → Bool
  | [], _ => true
  | _ :: _, [] => false
  | a :: as, b :: bs => if a < b then true else if b < a then false else pyLe as bs

/-- The newline joining "\n".join(report). -/
def pyJoinLines (lines : List PyStr) : PyStr := List.intercalate [10] lines

/-- Decimal digits of a number, as a Python string. -/
def natToPy (n : Nat) : PyStr := pystr (toString n)

/-- Python's f-string "{x:.1f}" for the percentage count / total * 100,
modelled as exact half-to-even rounding to one decimal place (the source
rounds the nearest double; the two agree except on double-precision
representation error, which no claim touches). -/
def pctOneDecimal (count total : Nat) : PyStr :=
  let t := count * 1000
  let q := t / total
  let r := t % total
  let rounded :=
    if total < 2 * r then q + 1
    else if 2 * r < total then q
    else if q % 2 = 0 then q else q + 1
  natToPy (rounded / 10) ++ [46] ++ natToPy (rounded % 10)

/-- The insertion-ordered grouping dict of
ReportGenerator.generate_department_report. -/
def groupByDepartment (students : List Student) : List (PyStr × List Student) :=
  students.foldl
    (fun groups st =>
      if groups.any (fun g => g.1 == st.department) then
        groups.map (fun g => if g.1 == st.department then (g.1, g.2 ++ [st]) else g)
      else groups ++ [(st.department, [st])])
    []

/-- The per-student lines of the department report's body. -/
def studentLines (st : Student) : List PyStr :=
  [pystr "  • " ++ st.name ++ pystr " (" ++ st.roll ++ pystr ")",
   pystr "    Email: " ++ st.email] ++
  (if st.phone = [] then [] else [pystr "    Phone: " ++ st.phone]) ++
  [[]]

/-- ReportGenerator.generate_department_report; `now` is the formatted
datetime.now() string. Returns "No students found." on an empty collection,
otherwise the header, then each department in sorted order with its students
sorted by name. -/
def generate_department_report (students : List Student) (now : PyStr) : PyStr :=
  if students = [] then pystr "No students found."
  else
    let departments := groupByDepartment students
    let header : List PyStr :=
      [List.replicate 60 61,
       pystr "STUDENT MANAGEMENT SYSTEM - DEPARTMENT REPORT",
       List.replicate 60 61,
       pystr "Generated on: " ++ now,
       pystr "Total Students: " ++ natToPy students.length,
       pystr "Total Departments: " ++ natToPy departments.length,
       []]
    let body : List PyStr :=
      ((departments.map Prod.fst).mergeSort pyLe).flatMap (fun dept =>
        let deptStudents := (departments.filter (fun g => g.1 == dept)).flatMap Prod.snd
        [pystr "DEPARTMENT: " ++ dept,
         List.replicate 40 45,
         pystr "Number of Students: " ++ natToPy deptStudents.length,
         []] ++
        (deptStudents.mergeSort (fun a b => pyLe a.name b.name)).flatMap studentLines)
    pyJoinLines (header ++ body)

/-- The insertion-ordered department counts of
ReportGenerator.generate_summary_report. -/
def departmentCounts (students : List Student) : List (PyStr × Nat) :=
  students.foldl
    (fun counts st =>
      if counts.any (fun g => g.1 == st.department) then
        counts.map (fun g => if g.1 == st.department then (g.1, g.2 + 1) else g)
      else counts ++ [(st.department, 1)])
    []

/-- ReportGenerator.generate_summary_report; `now` is the formatted
datetime.now() string. Returns "No students found." on an empty collection,
otherwise the overview then one line per department in sorted order with its
count and percentage. -/
def generate_summary_report (students : List Student) (now : PyStr) : PyStr :=
  if students = [] then pystr "No students found."
  else
    let totalStudents := students.length
    let counts := departmentCounts students
    let header : List PyStr :=
      [List.replicate 50 61,
       pystr "STUDENT MANAGEMENT SYSTEM - SUMMARY REPORT",
       List.replicate 50 61,
       pystr "Generated on: " ++ now,
       [],
       pystr "OVERVIEW:",
       pystr "  Total Students: " ++ natToPy totalStudents,
       pystr "  Total Departments: " ++ natToPy counts.length,
       [],
       pystr "STUDENTS BY DEPARTMENT:",
       List.replicate 30 45]
    let body : List PyStr :=
      ((counts.map Prod.fst).mergeSort pyLe).map (fun dept =>
        let count := ((counts.filter (fun g => g.1 == dept)).map Prod.snd).sum
        pystr "  " ++ dept ++ pystr ": " ++ natToPy count ++ pystr " students (" ++
          pctOneDecimal count totalStudents ++ pystr "%)")
    pyJoinLines (header ++ body)


/-! ### Lemmas about the string primitives -/

lemma isAsciiLower_iff (n : Nat) : isAsciiLower n = true ↔ 97 ≤ n ∧ n ≤ 122 := by
  simp [isAsciiLower]

lemma isAsciiUpper_iff (n : Nat) : isAsciiUpper n = true ↔ 65 ≤ n ∧ n ≤ 90 := by
  simp [isAsciiUpper]

lemma pyIsSpace_iff (n : Nat) : pyIsSpace n = true ↔
    (9 ≤ n ∧ n ≤ 13) ∨ (28 ≤ n ∧ n ≤ 31) ∨ n = 32 ∨ n = 133 ∨ n = 160 ∨
    n = 5760 ∨ (8192 ≤ n ∧ n ≤ 8202) ∨ n = 8232 ∨ n = 8233 ∨ n = 8239 ∨
    n = 8287 ∨ n = 12288 := by
  simp [pyIsSpace]
  tauto

lemma pyIsSpace_pyUpperChar (n : Nat) : pyIsSpace (pyUpperChar n) = pyIsSpace n := by
  unfold pyUpperChar
  by_cases h : isAsciiLower n = true
  · have h' := (isAsciiLower_iff n).mp h
    have a : pyIsSpace (n - 32) = false := by
      rw [Bool.eq_false_iff, Ne, pyIsSpace_iff]; omega
    have b : pyIsSpace n = false := by
      rw [Bool.eq_false_iff, Ne, pyIsSpace_iff]; omega
    rw [if_pos h, a, b]
  · rw [if_neg h]

lemma pyIsSpace_pyLowerChar (n : Nat) : pyIsSpace (pyLowerChar n) = pyIsSpace n := by
  unfold pyLowerChar
  by_cases h : isAsciiUpper n = true
  · have h' := (isAsciiUpper_iff n).mp h
    have a : pyIsSpace (n + 32) = false := by
      rw [Bool.eq_false_iff, Ne, pyIsSpace_iff]; omega
    have b : pyIsSpace n = false := by
      rw [Bool.eq_false_iff, Ne, pyIsSpace_iff]; omega
    rw [if_pos h, a, b]
  · rw [if_neg h]

lemma isAsciiAlpha_iff (n : Nat) : isAsciiAlpha n = true ↔
    (65 ≤ n ∧ n ≤ 90) ∨ (97 ≤ n ∧ n ≤ 122) := by
  simp [isAsciiAlpha, isAsciiUpper, isAsciiLower]

lemma isAsciiAlpha_pyUpperChar (n : Nat) : isAsciiAlpha (pyUpperChar n) = isAsciiAlpha n := by
  unfold pyUpperChar
  by_cases h : isAsciiLower n = true
  · have h' := (isAsciiLower_iff n).mp h
    rw [if_pos h, Bool.eq_iff_iff, isAsciiAlpha_iff, isAsciiAlpha_iff]
    omega
  · rw [if_neg h]

lemma isAsciiAlpha_pyLowerChar (n : Nat) : isAsciiAlpha (pyLowerChar n) = isAsciiAlpha n := by
  unfold pyLowerChar
  by_cases h : isAsciiUpper n = true
  · have h' := (isAsciiUpper_iff n).mp h
    rw [if_pos h, Bool.eq_iff_iff, isAsciiAlpha_iff, isAsciiAlpha_iff]
    omega
  · rw [if_neg h]

lemma isAsciiLower_pyUpperChar (n : Nat) : isAsciiLower (pyUpperChar n) = false := by
  unfold pyUpperChar
  by_cases h : isAsciiLower n = true
  · have h' := (isAsciiLower_iff n).mp h
    rw [if_pos h, Bool.eq_false_iff, Ne, isAsciiLower_iff]; omega
  · rw [if_neg h, Bool.eq_false_iff]; exact h

lemma isAsciiUpper_pyLowerChar (n : Nat) : isAsciiUpper (pyLowerChar n) = false := by
  unfold pyLowerChar
  by_cases h : isAsciiUpper n = true
  · have h' := (isAsciiUpper_iff n).mp h
    rw [if_pos h, Bool.eq_false_iff, Ne, isAsciiUpper_iff]; omega
  · rw [if_neg h, Bool.eq_false_iff]; exact h

lemma pyUpperChar_idem (n : Nat) : pyUpperChar (pyUpperChar n) = pyUpperChar n := by
  have h := isAsciiLower_pyUpperChar n
  unfold pyUpperChar at h ⊢
  rw [h]
  simp

lemma pyLowerChar_idem (n : Nat) : pyLowerChar (pyLowerChar n) = pyLowerChar n := by
  have h := isAsciiUpper_pyLowerChar n
  unfold pyLowerChar at h ⊢
  rw [h]
  simp

lemma pyUpperChar_of_not_lower (n : Nat) (h : isAsciiLower n = false) : pyUpperChar n = n := by
  unfold pyUpperChar
  rw [h]
  simp

lemma pyLowerChar_of_not_upper (n : Nat) (h : isAsciiUpper n = false) : pyLowerChar n = n := by
  unfold pyLowerChar
  rw [h]
  simp

lemma map_eq_self {f : Nat → Nat} {l : PyStr} (h : ∀ x ∈ l, f x = x) : l.map f = l := by
  induction l with
  | nil => rfl
  | cons a as ih =>
      simp only [List.map_cons, h a (by simp)]
      rw [ih (fun x hx => h x (by simp [hx]))]

lemma dropWhile_head_false (p : Nat → Bool) (l : PyStr) :
    ∀ x ∈ (l.dropWhile p).head?, p x = false := by
  induction l with
  | nil => intro x hx; simp [List.dropWhile] at hx
  | cons a as ih =>
      intro x hx
      rw [List.dropWhile_cons] at hx
      by_cases hp : p a = true
      · rw [if_pos hp] at hx
        exact ih x hx
      · rw [if_neg hp] at hx
        simp only [List.head?_cons, Option.mem_def, Option.some_inj] at hx
        subst hx
        simpa using hp

lemma getLast?_dropWhile (p : Nat → Bool) (l : PyStr) (h : l.dropWhile p ≠ []) :
    (l.dropWhile p).getLast? = l.getLast? := by
  induction l with
  | nil => simp [List.dropWhile] at h
  | cons a as ih =>
      rw [List.dropWhile_cons] at h ⊢
      by_cases hp : p a
      · rw [if_pos hp] at h ⊢
        have hne : as ≠ [] := by
          intro e; subst e; simp [List.dropWhile] at h
        rw [ih h]
        cases as with
        | nil => exact absurd rfl hne
        | cons b bs => rw [List.getLast?_cons_cons]
      · rw [if_neg hp]

lemma dropWhile_eq_self (p : Nat → Bool) (l : PyStr)
    (h : ∀ x ∈ l.head?, p x = false) : l.dropWhile p = l := by
  cases l with
  | nil => rfl
  | cons a as =>
      have ha : p a = false := h a (by simp)
      simp [List.dropWhile_cons, ha]

lemma pyStrip_head_false (l : PyStr) : ∀ x ∈ (pyStrip l).head?, pyIsSpace x = false := by
  intro x hx
  unfold pyStrip at hx
  rw [List.head?_reverse] at hx
  by_cases h : (l.dropWhile pyIsSpace).reverse.dropWhile pyIsSpace = []
  · rw [h] at hx; simp at hx
  · rw [getLast?_dropWhile _ _ h, List.getLast?_reverse] at hx
    exact dropWhile_head_false pyIsSpace l x hx

lemma pyStrip_last_false (l : PyStr) : ∀ x ∈ (pyStrip l).getLast?, pyIsSpace x = false := by
  intro x hx
  unfold pyStrip at hx
  rw [List.getLast?_reverse] at hx
  exact dropWhile_head_false _ _ x hx

lemma pyStrip_eq_self (l : PyStr)
    (h1 : ∀ x ∈ l.head?, pyIsSpace x = false)
    (h2 : ∀ x ∈ l.getLast?, pyIsSpace x = false) : pyStrip l = l := by
  unfold pyStrip
  rw [dropWhile_eq_self _ _ h1]
  rw [dropWhile_eq_self _ _ (by intro x hx; rw [List.head?_reverse] at hx; exact h2 x hx)]
  exact List.reverse_reverse l

lemma pyStrip_idem (l : PyStr) : pyStrip (pyStrip l) = pyStrip l :=
  pyStrip_eq_self _ (pyStrip_head_false l) (pyStrip_last_false l)

lemma pyStrip_nil : pyStrip [] = [] := rfl

lemma pyStrip_eq_nil_of_space (l : PyStr) (h : ∀ c ∈ l, pyIsSpace c = true) :
    pyStrip l = [] := by
  unfold pyStrip
  rw [List.dropWhile_eq_nil_iff.mpr h]
  rfl

/-! ### Lemmas about pyTitle -/

lemma pyTitleChar_pyIsSpace (b : Bool) (c : Nat) :
    pyIsSpace (pyTitleChar b c) = pyIsSpace c := by
  unfold pyTitleChar
  by_cases h : isAsciiAlpha c = true
  · rw [if_pos h]
    cases b
    · simp only [Bool.false_eq_true, if_false]; exact pyIsSpace_pyUpperChar c
    · simp only [if_true]; exact pyIsSpace_pyLowerChar c
  · rw [if_neg h]

lemma pyTitleChar_alpha (b : Bool) (c : Nat) :
    isAsciiAlpha (pyTitleChar b c) = isAsciiAlpha c := by
  unfold pyTitleChar
  by_cases h : isAsciiAlpha c = true
  · rw [if_pos h]
    cases b
    · simp only [Bool.false_eq_true, if_false]; exact isAsciiAlpha_pyUpperChar c
    · simp only [if_true]; exact isAsciiAlpha_pyLowerChar c
  · rw [if_neg h]

lemma pyTitleChar_idem (b : Bool) (c : Nat) :
    pyTitleChar b (pyTitleChar b c) = pyTitleChar b c := by
  by_cases h : isAsciiAlpha c = true
  · have h2 : isAsciiAlpha (pyTitleChar b c) = true := by rw [pyTitleChar_alpha, h]
    cases b
    · have e : pyTitleChar false c = pyUpperChar c := by simp [pyTitleChar, h]
      rw [e]
      have e2 : isAsciiAlpha (pyUpperChar c) = true := by rw [isAsciiAlpha_pyUpperChar, h]
      simp [pyTitleChar, e2, pyUpperChar_idem]
    · have e : pyTitleChar true c = pyLowerChar c := by simp [pyTitleChar, h]
      rw [e]
      have e2 : isAsciiAlpha (pyLowerChar c) = true := by rw [isAsciiAlpha_pyLowerChar, h]
      simp [pyTitleChar, e2, pyLowerChar_idem]
  · have e : pyTitleChar b c = c := by simp [pyTitleChar, h]
    rw [e, e]

lemma pyTitleAux_nil (b : Bool) : pyTitleAux b [] = [] := rfl

lemma pyTitleAux_cons (b : Bool) (c : Nat) (rest : PyStr) :
    pyTitleAux b (c :: rest) = pyTitleChar b c :: pyTitleAux (isAsciiAlpha c) rest := rfl

lemma pyTitleAux_ne_nil (b : Bool) (l : PyStr) (h : l ≠ []) : pyTitleAux b l ≠ [] := by
  cases l with
  | nil => exact absurd rfl h
  | cons c cs => rw [pyTitleAux_cons]; exact List.cons_ne_nil _ _

lemma pyTitleAux_head (b : Bool) (l : PyStr) :
    (pyTitleAux b l).head? = l.head?.map (pyTitleChar b) := by
  cases l with
  | nil => rfl
  | cons c cs => rw [pyTitleAux_cons]; rfl

lemma pyTitleAux_getLast_space (l : PyStr) : ∀ (b : Bool),
    ∀ x ∈ (pyTitleAux b l).getLast?, ∀ y ∈ l.getLast?, pyIsSpace x = pyIsSpace y := by
  induction l with
  | nil => intro b x hx; rw [pyTitleAux_nil] at hx; simp at hx
  | cons c cs ih =>
      intro b x hx y hy
      cases cs with
      | nil =>
          rw [pyTitleAux_cons, pyTitleAux_nil] at hx
          simp only [List.getLast?_singleton, Option.mem_def, Option.some_inj] at hx hy
          subst hx; subst hy
          exact pyTitleChar_pyIsSpace b c
      | cons c2 cs2 =>
          rw [pyTitleAux_cons, pyTitleAux_cons] at hx
          rw [List.getLast?_cons_cons] at hx hy
          have hx' : x ∈ (pyTitleAux (isAsciiAlpha c) (c2 :: cs2)).getLast? := by
            rw [pyTitleAux_cons]; exact hx
          exact ih (isAsciiAlpha c) x hx' y hy

lemma pyTitleAux_idem (l : PyStr) : ∀ b, pyTitleAux b (pyTitleAux b l) = pyTitleAux b l := by
  induction l with
  | nil => intro b; rfl
  | cons c cs ih =>
      intro b
      rw [pyTitleAux_cons, pyTitleAux_cons, pyTitleChar_idem, pyTitleChar_alpha]
      rw [ih (isAsciiAlpha c)]

lemma pyTitle_idem (l : PyStr) : pyTitle (pyTitle l) = pyTitle l := pyTitleAux_idem l false

/-! ### Each field validator against its spec-side rule -/

lemma empty_cond {l : PyStr} (h : ¬ pyStrip l = []) : ¬ (l = [] ∨ pyStrip l = []) :=
  fun hc => h (hc.elim (fun e => by subst e; rfl) id)

lemma validate_name_eq (n : PyStr) : validate_name n =
    match name_rule_error n with
    | some m => .error m
    | none => .ok (pyTitle (pyStrip n)) := by
  unfold validate_name name_rule_error
  by_cases h : pyStrip n = []
  · rw [if_pos (Or.inr h), if_pos h]
  · rw [if_neg (empty_cond h), if_neg h]

lemma validate_roll_eq (roll : PyStr) : validate_roll roll =
    match roll_rule_error roll with
    | some m => .error m
    | none => .ok (pyUpper (pyStrip roll)) := by
  unfold validate_roll roll_rule_error
  by_cases h : pyStrip roll = []
  · rw [if_pos (Or.inr h), if_pos h]
  · rw [if_neg (empty_cond h), if_neg h]
    by_cases h2 : rollMatch (pyUpper (pyStrip roll)) = true
    · rw [if_pos h2, if_pos h2]
    · rw [if_neg h2, if_neg h2]

lemma validate_department_eq (d : PyStr) : validate_department d =
    match department_rule_error d with
    | some m => .error m
    | none => .ok (pyTitle (pyStrip d)) := by
  unfold validate_department department_rule_error
  by_cases h : pyStrip d = []
  · rw [if_pos (Or.inr h), if_pos h]
  · rw [if_neg (empty_cond h), if_neg h]

lemma validate_email_eq (e : PyStr) : validate_email e =
    match email_rule_error e with
    | some m => .error m
    | none => .ok (pyLower (pyStrip e)) := by
  unfold validate_email email_rule_error
  by_cases h : pyStrip e = []
  · rw [if_pos (Or.inr h), if_pos h]
  · rw [if_neg (empty_cond h), if_neg h]
    by_cases h2 : emailMatch (pyLower (pyStrip e)) = true
    · rw [if_pos h2, if_pos h2]
    · rw [if_neg h2, if_neg h2]

lemma validate_phone_eq (p : PyStr) : validate_phone p =
    match phone_rule_error p with
    | some m => .error m
    | none => .ok (if p = [] then [] else pyStrip p) := by
  unfold validate_phone phone_rule_error
  by_cases h : p = []
  · rw [if_pos h, if_pos h, if_pos h]
  · rw [if_neg h, if_neg h, if_neg h]
    by_cases h2 : phoneMatch (pyStrip p) = true
    · rw [if_pos h2, if_pos h2]
    · rw [if_neg h2, if_neg h2]

/-! ### Re-validation of each validator's own output -/

lemma title_output_strip (z : PyStr) (hh : ∀ x ∈ z.head?, pyIsSpace x = false)
    (hl : ∀ x ∈ z.getLast?, pyIsSpace x = false) :
    pyStrip (pyTitle z) = pyTitle z := by
  apply pyStrip_eq_self
  · intro x hx
    rw [pyTitle, pyTitleAux_head] at hx
    cases hy : z.head? with
    | none => rw [hy] at hx; simp at hx
    | some y =>
        rw [hy, Option.mem_def] at hx
        injection hx with hx
        subst hx
        rw [pyTitleChar_pyIsSpace]
        exact hh y (by rw [hy]; rfl)
  · intro x hx
    cases hy : z.getLast? with
    | none =>
        rw [List.getLast?_eq_none_iff] at hy
        subst hy
        rw [pyTitle, pyTitleAux_nil] at hx
        simp at hx
    | some y =>
        rw [pyTitleAux_getLast_space z false x hx y (by rw [hy]; rfl)]
        exact hl y (by rw [hy]; rfl)

lemma validate_name_roundtrip (n v : PyStr) (h : validate_name n = .ok v) :
    validate_name v = .ok v := by
  unfold validate_name at h ⊢
  by_cases hc : n = [] ∨ pyStrip n = []
  · rw [if_pos hc] at h; cases h
  · rw [if_neg hc] at h
    injection h with h
    subst h
    have hz : pyStrip n ≠ [] := fun e => hc (Or.inr e)
    have hne : pyTitle (pyStrip n) ≠ [] := pyTitleAux_ne_nil false _ hz
    have hstrip : pyStrip (pyTitle (pyStrip n)) = pyTitle (pyStrip n) :=
      title_output_strip _ (pyStrip_head_false n) (pyStrip_last_false n)
    rw [if_neg (by rw [hstrip]; exact fun hc2 => hc2.elim hne hne), hstrip, pyTitle_idem]

lemma validate_department_roundtrip (d v : PyStr) (h : validate_department d = .ok v) :
    validate_department v = .ok v := by
  unfold validate_department at h ⊢
  by_cases hc : d = [] ∨ pyStrip d = []
  · rw [if_pos hc] at h; cases h
  · rw [if_neg hc] at h
    injection h with h
    subst h
    have hz : pyStrip d ≠ [] := fun e => hc (Or.inr e)
    have hne : pyTitle (pyStrip d) ≠ [] := pyTitleAux_ne_nil false _ hz
    have hstrip : pyStrip (pyTitle (pyStrip d)) = pyTitle (pyStrip d) :=
      title_output_strip _ (pyStrip_head_false d) (pyStrip_last_false d)
    rw [if_neg (by rw [hstrip]; exact fun hc2 => hc2.elim hne hne), hstrip, pyTitle_idem]

lemma map_output_strip (f : Nat → Nat) (hf : ∀ c, pyIsSpace (f c) = pyIsSpace c)
    (z : PyStr) (hh : ∀ x ∈ z.head?, pyIsSpace x = false)
    (hl : ∀ x ∈ z.getLast?, pyIsSpace x = false) :
    pyStrip (z.map f) = z.map f := by
  apply pyStrip_eq_self
  · intro x hx
    rw [List.head?_map] at hx
    cases hy : z.head? with
    | none => rw [hy] at hx; simp at hx
    | some y =>
        rw [hy, Option.mem_def] at hx
        injection hx with hx
        subst hx
        rw [hf]
        exact hh y (by rw [hy]; rfl)
  · intro x hx
    rw [List.getLast?_map] at hx
    cases hy : z.getLast? with
    | none => rw [hy] at hx; simp at hx
    | some y =>
        rw [hy, Option.mem_def] at hx
        injection hx with hx
        subst hx
        rw [hf]
        exact hl y (by rw [hy]; rfl)

lemma validate_roll_roundtrip (roll v : PyStr) (h : validate_roll roll = .ok v) :
    validate_roll v = .ok v := by
  unfold validate_roll at h ⊢
  by_cases hc : roll = [] ∨ pyStrip roll = []
  · rw [if_pos hc] at h; cases h
  · rw [if_neg hc] at h
    by_cases h2 : rollMatch (pyUpper (pyStrip roll)) = true
    · rw [if_pos h2] at h
      injection h with h
      subst h
      have hne : pyUpper (pyStrip roll) ≠ [] := by
        intro e
        rw [e] at h2
        exact absurd h2 (by decide)
      have hstrip : pyStrip (pyUpper (pyStrip roll)) = pyUpper (pyStrip roll) :=
        map_output_strip _ pyIsSpace_pyUpperChar _ (pyStrip_head_false roll)
          (pyStrip_last_false roll)
      have hupper : pyUpper (pyUpper (pyStrip roll)) = pyUpper (pyStrip roll) := by
        apply map_eq_self
        intro x hx
        obtain ⟨y, _, rfl⟩ := List.mem_map.mp hx
        exact pyUpperChar_idem y
      rw [if_neg (by rw [hstrip]; exact fun hc2 => hc2.elim hne hne), hstrip, hupper,
        if_pos h2]
    · rw [if_neg h2] at h; cases h

lemma validate_email_roundtrip (email v : PyStr) (h : validate_email email = .ok v) :
    validate_email v = .ok v := by
  unfold validate_email at h ⊢
  by_cases hc : email = [] ∨ pyStrip email = []
  · rw [if_pos hc] at h; cases h
  · rw [if_neg hc] at h
    by_cases h2 : emailMatch (pyLower (pyStrip email)) = true
    · rw [if_pos h2] at h
      injection h with h
      subst h
      have hne : pyLower (pyStrip email) ≠ [] := by
        intro e
        rw [e] at h2
        exact absurd h2 (by decide)
      have hstrip : pyStrip (pyLower (pyStrip email)) = pyLower (pyStrip email) :=
        map_output_strip _ pyIsSpace_pyLowerChar _ (pyStrip_head_false email)
          (pyStrip_last_false email)
      have hlower : pyLower (pyLower (pyStrip email)) = pyLower (pyStrip email) := by
        apply map_eq_self
        intro x hx
        obtain ⟨y, _, rfl⟩ := List.mem_map.mp hx
        exact pyLowerChar_idem y
      rw [if_neg (by rw [hstrip]; exact fun hc2 => hc2.elim hne hne), hstrip, hlower,
        if_pos h2]
    · rw [if_neg h2] at h; cases h

lemma validate_phone_roundtrip (phone v : PyStr) (h : validate_phone phone = .ok v) :
    validate_phone v = .ok v := by
  unfold validate_phone at h ⊢
  by_cases hc : phone = []
  · rw [if_pos hc] at h
    injection h with h
    subst h
    rfl
  · rw [if_neg hc] at h
    by_cases h2 : phoneMatch (pyStrip phone) = true
    · rw [if_pos h2] at h
      injection h with h
      subst h
      have hne : pyStrip phone ≠ [] := by
        intro e
        rw [e] at h2
        exact absurd h2 (by decide)
      rw [if_neg hne, pyStrip_idem, if_pos h2]
    · rw [if_neg h2] at h; cases h

/-! ### Claims about the Entity Validator -/

/-- C2: validate_student checks the fields in the fixed order name, roll,
department, email, phone, normalizing before each pattern check, and fails
with exactly the message of the first violated rule in that order. -/
theorem claim_C2_first_rule_order (name roll department email phone : PyStr)
    (sid : Option Nat) (m : String) :
    validate_student name roll department email phone sid = .error m ↔
      first_rule_error name roll department email phone = some m := by
  unfold validate_student first_rule_error
  rw [validate_name_eq, validate_roll_eq, validate_department_eq, validate_email_eq,
    validate_phone_eq]
  cases hn : name_rule_error name with
  | some m0 => simp
  | none =>
    cases hr : roll_rule_error roll with
    | some m0 => simp
    | none =>
      cases hd : department_rule_error department with
      | some m0 => simp
      | none =>
        cases he : email_rule_error email with
        | some m0 => simp
        | none =>
          cases hp : phone_rule_error phone with
          | some m0 => simp
          | none => simp

/-- C4: validation is idempotent on its own output — re-running
validate_student on a validated student's own field values (its to_dict
values, id included) succeeds and returns the same student field-for-field. -/
theorem claim_C4_idempotent (name roll department email phone : PyStr)
    (sid : Option Nat) (s : Student)
    (h : validate_student name roll department email phone sid = .ok s) :
    validate_student s.name s.roll s.department s.email s.phone s.id = .ok s := by
  unfold validate_student at h ⊢
  cases hn : validate_name name with
  | error m => rw [hn] at h; cases h
  | ok n' =>
  rw [hn] at h
  cases hr : validate_roll roll with
  | error m => rw [hr] at h; cases h
  | ok r' =>
  rw [hr] at h
  cases hd : validate_department department with
  | error m => rw [hd] at h; cases h
  | ok d' =>
  rw [hd] at h
  cases he : validate_email email with
  | error m => rw [he] at h; cases h
  | ok e' =>
  rw [he] at h
  cases hp : validate_phone phone with
  | error m => rw [hp] at h; cases h
  | ok p' =>
  rw [hp] at h
  injection h with h
  subst h
  rw [validate_name_roundtrip _ _ hn, validate_roll_roundtrip _ _ hr,
    validate_department_roundtrip _ _ hd, validate_email_roundtrip _ _ he,
    validate_phone_roundtrip _ _ hp]

/-- C4 witness: idempotence applied to one concrete validated student. -/
theorem claim_C4_idempotent_witness :
    validate_student (pystr "John  Doe") (pystr "CS001") (pystr "Computer Science")
      (pystr "john.doe+x@mail.example.com") (pystr "+880 123-4567") (some 7) =
    .ok ⟨some 7, pystr "John  Doe", pystr "CS001", pystr "Computer Science",
         pystr "john.doe+x@mail.example.com", pystr "+880 123-4567"⟩ :=
  claim_C4_idempotent (pystr "  john  doe ") (pystr "cs001") (pystr "computer science")
    (pystr " John.Doe+x@Mail.Example.COM ") (pystr " +880 123-4567 ") (some 7)
    ⟨some 7, pystr "John  Doe", pystr "CS001", pystr "Computer Science",
     pystr "john.doe+x@mail.example.com", pystr "+880 123-4567"⟩ (by decide)

/-- C9: a phone input that is non-empty but all whitespace is trimmed to the
empty string after the not-provided shortcut has already been passed, so it
is rejected by the 7-to-15-character pattern with the invalid-phone-format
error, while the empty phone itself validates to "not provided". -/
theorem claim_C9_whitespace_phone (name roll department email phone : PyStr)
    (sid : Option Nat)
    (hn : ∃ v, validate_name name = .ok v) (hr : ∃ v, validate_roll roll = .ok v)
    (hd : ∃ v, validate_department department = .ok v)
    (he : ∃ v, validate_email email = .ok v)
    (hne : phone ≠ []) (hsp : ∀ c ∈ phone, pyIsSpace c = true) :
    validate_student name roll department email phone sid =
      .error "Invalid phone number format" ∧
    validate_phone [] = .ok [] := by
  obtain ⟨n', hn⟩ := hn
  obtain ⟨r', hr⟩ := hr
  obtain ⟨d', hd⟩ := hd
  obtain ⟨e', he⟩ := he
  have hphone : validate_phone phone = .error "Invalid phone number format" := by
    unfold validate_phone
    rw [if_neg hne, pyStrip_eq_nil_of_space phone hsp]
    rfl
  refine ⟨?_, rfl⟩
  unfold validate_student
  rw [hn, hr, hd, he, hphone]

/-- C9 witness: a single-space phone next to otherwise valid fields. -/
theorem claim_C9_whitespace_phone_witness :
    validate_student (pystr "Ann") (pystr "R1") (pystr "CSE") (pystr "a@b.cd")
      (pystr " ") none = .error "Invalid phone number format" ∧
    validate_phone [] = .ok [] :=
  claim_C9_whitespace_phone (pystr "Ann") (pystr "R1") (pystr "CSE") (pystr "a@b.cd")
    (pystr " ") none ⟨pystr "Ann", by decide⟩ ⟨pystr "R1", by decide⟩
    ⟨pystr "Cse", by decide⟩ ⟨pystr "a@b.cd", by decide⟩ (by decide)
    (by decide)

/-! ### The CSV batch validator -/

lemma validate_csv_aux_nil (i : Nat) (sr se : List PyStr) :
    validate_csv_aux [] i sr se = [] := rfl

lemma validate_csv_aux_cons (row : RawRow) (rest : List RawRow) (i : Nat)
    (sr se : List PyStr) :
    validate_csv_aux (row :: rest) i sr se =
      rowErrors i row (sr, se) ++
        validate_csv_aux rest (i + 1) (advanceSeen (sr, se) row).1
          (advanceSeen (sr, se) row).2 := by
  rw [validate_csv_aux]
  cases hr : rowStudent row with
  | error m => simp [rowErrors, advanceSeen, hr]
  | ok st => simp [rowErrors, advanceSeen, hr]

lemma validate_csv_aux_append (l1 : List RawRow) : ∀ (l2 : List RawRow) (i : Nat)
    (sr se : List PyStr),
    validate_csv_aux (l1 ++ l2) i sr se =
      validate_csv_aux l1 i sr se ++
        validate_csv_aux l2 (i + l1.length) (seenAfter (sr, se) l1).1
          (seenAfter (sr, se) l1).2 := by
  induction l1 with
  | nil => intro l2 i sr se; simp [validate_csv_aux_nil, seenAfter]
  | cons row rest ih =>
      intro l2 i sr se
      rw [List.cons_append, validate_csv_aux_cons, validate_csv_aux_cons, ih]
      have e2 : seenAfter ((advanceSeen (sr, se) row).1, (advanceSeen (sr, se) row).2)
          rest = seenAfter (sr, se) (row :: rest) := by
        simp [seenAfter, List.foldl_cons]
      rw [e2]
      have e3 : i + 1 + rest.length = i + (row :: rest).length := by simp; omega
      rw [e3, List.append_assoc]

/-- C3: batch validation processes every row independently — a failing row
contributes exactly its "Row i: message" string and never stops later rows;
a prefix's errors are unchanged by appending rows, and the appended rows are
processed with the continued numbering and the prefix's seen sets; the
spec's 3-row example (row 2 with an empty name, row 3 repeating row 1's roll
up to case) yields exactly the two errors for rows 2 and 3. -/
theorem claim_C3_batch_validation :
    (∀ l1 l2 : List RawRow,
      validate_csv_data (l1 ++ l2) =
        validate_csv_data l1 ++
          validate_csv_aux l2 (1 + l1.length) (seenAfter ([], []) l1).1
            (seenAfter ([], []) l1).2) ∧
    (∀ (row : RawRow) (rest : List RawRow) (i : Nat) (sr se : List PyStr) (m : String),
      rowStudent row = .error m →
      validate_csv_aux (row :: rest) i sr se =
        ("Row " ++ toString i ++ ": " ++ m) :: validate_csv_aux rest (i + 1) sr se) ∧
    (∀ (row : RawRow) (rest : List RawRow) (i : Nat) (sr se : List PyStr),
      validate_csv_aux (row :: rest) i sr se =
        rowErrors i row (sr, se) ++
          validate_csv_aux rest (i + 1) (advanceSeen (sr, se) row).1
            (advanceSeen (sr, se) row).2) ∧
    validate_csv_data
      [⟨pystr "Alice", pystr "cs001", pystr "CSE", pystr "alice@x.com", pystr ""⟩,
       ⟨pystr "  ", pystr "cs002", pystr "CSE", pystr "bob@x.com", pystr ""⟩,
       ⟨pystr "Carol", pystr "CS001", pystr "CSE", pystr "carol@x.com", pystr ""⟩] =
      ["Row 2: Name cannot be empty",
       "Row 3: Duplicate roll number 'CS001' in import data"] := by
  refine ⟨?_, ?_, validate_csv_aux_cons, by decide⟩
  · intro l1 l2
    unfold validate_csv_data
    rw [validate_csv_aux_append, Nat.add_comm]
  · intro row rest i sr se m hm
    rw [validate_csv_aux]
    rw [hm]

/-- C3 witness: the failing-row conjunct applied to a concrete row with a
whitespace-only name. -/
theorem claim_C3_batch_validation_witness :
    validate_csv_aux [⟨pystr " ", pystr "R9", pystr "D", pystr "z@x.cd", pystr ""⟩] 5
      [] [] = ["Row 5: Name cannot be empty"] :=
  claim_C3_batch_validation.2.1
    ⟨pystr " ", pystr "R9", pystr "D", pystr "z@x.cd", pystr ""⟩ [] 5 [] []
    "Name cannot be empty" (by decide)

/-- C10: the duplicate-roll and duplicate-email checks of batch validation
are independent, so one row that repeats both an earlier roll and an earlier
email contributes two error strings — the error list can be longer than the
number of offending rows. -/
theorem claim_C10_two_errors_one_row (prev : List RawRow) (row : RawRow) (st : Student)
    (hok : rowStudent row = .ok st)
    (hroll : st.roll ∈ (seenAfter ([], []) prev).1)
    (hemail : st.email ∈ (seenAfter ([], []) prev).2) :
    validate_csv_data (prev ++ [row]) =
      validate_csv_data prev ++
        ["Row " ++ toString (1 + prev.length) ++ ": Duplicate roll number '" ++
          st.roll.render ++ "' in import data",
         "Row " ++ toString (1 + prev.length) ++ ": Duplicate email '" ++
          st.email.render ++ "' in import data"] := by
  unfold validate_csv_data
  rw [validate_csv_aux_append, Nat.add_comm]
  congr 1
  rw [validate_csv_aux_cons]
  rw [rowErrors]
  rw [hok]
  simp only [hroll, hemail, if_pos]
  rw [validate_csv_aux_nil]
  simp

/-- C10 witness: a second row repeating the first row's roll (up to case)
and email (up to case) produces two errors for that single row. -/
theorem claim_C10_two_errors_one_row_witness :
    validate_csv_data
      [⟨pystr "Alice", pystr "cs001", pystr "CSE", pystr "alice@x.com", pystr ""⟩,
       ⟨pystr "Bob", pystr "CS001", pystr "CSE", pystr "Alice@X.COM", pystr ""⟩] =
      ["Row 2: Duplicate roll number 'CS001' in import data",
       "Row 2: Duplicate email 'alice@x.com' in import data"] := by
  have h := claim_C10_two_errors_one_row
    [⟨pystr "Alice", pystr "cs001", pystr "CSE", pystr "alice@x.com", pystr ""⟩]
    ⟨pystr "Bob", pystr "CS001", pystr "CSE", pystr "Alice@X.COM", pystr ""⟩
    ⟨none, pystr "Bob", pystr "CS001", pystr "Cse", pystr "alice@x.com", []⟩
    (by decide) (by decide) (by decide)
  exact h.trans (by decide)

/-! ### Claims about the Persistence Store -/

/-- C1: add_student checks the persisted rolls first, the persisted emails
second (so a double collision reports the roll), and otherwise inserts and
returns the newly assigned AUTOINCREMENT id. -/
theorem claim_C1_add_student (db : DBState) (s : Student) (now : Nat) :
    add_student db s now =
      if ∃ r ∈ db.students, r.roll = s.roll then
        .error ("Student with roll number '" ++ s.roll.render ++ "' already exists")
      else if ∃ r ∈ db.students, r.email = s.email then
        .error ("Student with email '" ++ s.email.render ++ "' already exists")
      else
        .ok (db.next_student_id,
          { db with
              students := db.students ++
                [⟨db.next_student_id, s.name, s.roll, s.department, s.email, s.phone,
                  now, now⟩],
              next_student_id := db.next_student_id + 1 }) := by
  unfold add_student
  by_cases h1 : ∃ r ∈ db.students, r.roll = s.roll
  · have b1 : db.students.any (fun r => r.roll == s.roll) = true := by
      simp only [List.any_eq_true, beq_iff_eq]; exact h1
    rw [if_pos b1, if_pos h1]
  · have b1 : ¬ db.students.any (fun r => r.roll == s.roll) = true := by
      simp only [List.any_eq_true, beq_iff_eq]; exact h1
    rw [if_neg b1, if_neg h1]
    by_cases h2 : ∃ r ∈ db.students, r.email = s.email
    · have b2 : db.students.any (fun r => r.email == s.email) = true := by
        simp only [List.any_eq_true, beq_iff_eq]; exact h2
      rw [if_pos b2, if_pos h2]
    · have b2 : ¬ db.students.any (fun r => r.email == s.email) = true := by
        simp only [List.any_eq_true, beq_iff_eq]; exact h2
      rw [if_neg b2, if_neg h2]

/-- C5: update_student fails with "Student not found" when no row has the
student's id, fails with a duplicate error only when a row with a different
id holds the roll or email, and otherwise rewrites every mutable field plus
updated_at of the matching row and returns that a row changed; in
particular, with unique rolls and emails in the store, updating only a
student's phone succeeds. -/
theorem claim_C5_update_student (db : DBState) (now : Nat) :
    (∀ s : Student, update_student db s now =
      if ¬ ∃ r ∈ db.students, s.id = some r.id then .error "Student not found"
      else if ∃ r ∈ db.students, r.roll = s.roll ∧ s.id ≠ some r.id then
        .error ("Student with roll number '" ++ s.roll.render ++ "' already exists")
      else if ∃ r ∈ db.students, r.email = s.email ∧ s.id ≠ some r.id then
        .error ("Student with email '" ++ s.email.render ++ "' already exists")
      else
        .ok (true, { db with
          students := db.students.map (fun r =>
            if s.id == some r.id then
              { r with name := s.name, roll := s.roll, department := s.department,
                       email := s.email, phone := s.phone, updated_at := now }
            else r) })) ∧
    (∀ (r : StudentRow) (newPhone : PyStr), r ∈ db.students →
      (∀ r1 ∈ db.students, ∀ r2 ∈ db.students, r1.roll = r2.roll → r1 = r2) →
      (∀ r1 ∈ db.students, ∀ r2 ∈ db.students, r1.email = r2.email → r1 = r2) →
      ∃ db', update_student db
        ⟨some r.id, r.name, r.roll, r.department, r.email, newPhone⟩ now =
          .ok (true, db')) := by
  constructor
  · intro s
    unfold update_student
    by_cases h1 : ∃ r ∈ db.students, s.id = some r.id
    · have b1 : (db.students.any fun r => s.id == some r.id) = true := by
        simp only [List.any_eq_true, beq_iff_eq]; exact h1
      have nb1 : ¬ ¬ (db.students.any fun r => s.id == some r.id) = true := fun hc => hc b1
      have nh1 : ¬ ¬ ∃ r ∈ db.students, s.id = some r.id := fun hc => hc h1
      rw [if_neg nb1, if_neg nh1]
      by_cases h2 : ∃ r ∈ db.students, r.roll = s.roll ∧ s.id ≠ some r.id
      · have b2 : (db.students.any fun r => r.roll == s.roll && s.id != some r.id) = true := by
          simp only [List.any_eq_true, Bool.and_eq_true, beq_iff_eq, bne_iff_ne]
          exact h2
        rw [if_pos b2, if_pos h2]
      · have b2 : ¬ (db.students.any fun r => r.roll == s.roll && s.id != some r.id) = true := by
          simp only [List.any_eq_true, Bool.and_eq_true, beq_iff_eq, bne_iff_ne]
          exact h2
        rw [if_neg b2, if_neg h2]
        by_cases h3 : ∃ r ∈ db.students, r.email = s.email ∧ s.id ≠ some r.id
        · have b3 : (db.students.any fun r => r.email == s.email && s.id != some r.id) = true := by
            simp only [List.any_eq_true, Bool.and_eq_true, beq_iff_eq, bne_iff_ne]
            exact h3
          rw [if_pos b3, if_pos h3]
        · have b3 : ¬ (db.students.any fun r => r.email == s.email && s.id != some r.id) = true := by
            simp only [List.any_eq_true, Bool.and_eq_true, beq_iff_eq, bne_iff_ne]
            exact h3
          rw [if_neg b3, if_neg h3]
          obtain ⟨r0, hr0, hid0⟩ := h1
          have hmem : r0 ∈ db.students.filter (fun r => s.id == some r.id) :=
            List.mem_filter.mpr ⟨hr0, by simp [hid0]⟩
          have hlen : 0 < (db.students.filter (fun r => s.id == some r.id)).length :=
            List.length_pos.mpr (List.ne_nil_of_mem hmem)
          simp only [decide_eq_true hlen]
    · have b1 : ¬ (db.students.any fun r => s.id == some r.id) = true := by
        simp only [List.any_eq_true, beq_iff_eq]
        exact h1
      rw [if_pos b1, if_pos h1]
  · intro r newPhone hr huroll huemail
    refine ⟨{ db with students := db.students.map (fun r' =>
      if (some r.id : Option Nat) == some r'.id then
        { r' with name := r.name, roll := r.roll, department := r.department,
                  email := r.email, phone := newPhone, updated_at := now }
      else r') }, ?_⟩
    unfold update_student
    have b1 : (db.students.any fun r' =>
        (some r.id : Option Nat) == some r'.id) = true := by
      simp only [List.any_eq_true, beq_iff_eq]
      exact ⟨r, hr, rfl⟩
    have nb1 : ¬ ¬ (db.students.any fun r' =>
        (some r.id : Option Nat) == some r'.id) = true := fun hc => hc b1
    rw [if_neg nb1]
    have b2 : ¬ (db.students.any fun r' =>
        r'.roll == r.roll && (some r.id : Option Nat) != some r'.id) = true := by
      simp only [List.any_eq_true, Bool.and_eq_true, beq_iff_eq, bne_iff_ne]
      rintro ⟨r', hr', he, hne⟩
      exact hne (by rw [huroll r' hr' r hr he])
    rw [if_neg b2]
    have b3 : ¬ (db.students.any fun r' =>
        r'.email == r.email && (some r.id : Option Nat) != some r'.id) = true := by
      simp only [List.any_eq_true, Bool.and_eq_true, beq_iff_eq, bne_iff_ne]
      rintro ⟨r', hr', he, hne⟩
      exact hne (by rw [huemail r' hr' r hr he])
    rw [if_neg b3]
    have hmem : r ∈ db.students.filter (fun r' => (some r.id : Option Nat) == some r'.id) :=
      List.mem_filter.mpr ⟨hr, by simp⟩
    have hlen : 0 < (db.students.filter
        (fun r' => (some r.id : Option Nat) == some r'.id)).length :=
      List.length_pos.mpr (List.ne_nil_of_mem hmem)
    simp only [decide_eq_true hlen]

/-- C5 witness: updating the phone of the only stored student, keeping its
roll and email, succeeds. -/
theorem claim_C5_update_student_witness :
    ∃ db', update_student
      ⟨[⟨1, pystr "Ann", pystr "R1", pystr "Cse", pystr "a@b.cd", [], 0, 0⟩], 2, [], 1⟩
      ⟨some 1, pystr "Ann", pystr "R1", pystr "Cse", pystr "a@b.cd", pystr "0123456"⟩ 9 =
      .ok (true, db') :=
  (claim_C5_update_student
    ⟨[⟨1, pystr "Ann", pystr "R1", pystr "Cse", pystr "a@b.cd", [], 0, 0⟩], 2, [], 1⟩ 9).2
    ⟨1, pystr "Ann", pystr "R1", pystr "Cse", pystr "a@b.cd", [], 0, 0⟩
    (pystr "0123456") (by decide) (by decide) (by decide)

/-- C6: the default admin user is seeded only into an empty user table, so
initialization is idempotent — a store with any user is left unchanged,
initializing twice equals initializing once, and the user count is and
stays 1 under repeated initialization of an initially empty store. -/
theorem claim_C6_init_idempotent :
    (∀ (db : DBState) (now : Nat), db.users ≠ [] → init_database db now = db) ∧
    (∀ (db : DBState) (now now2 : Nat),
      init_database (init_database db now) now2 = init_database db now) ∧
    (∀ now : Nat, get_user_count (init_database emptyDB now) = 1) ∧
    (∀ (db : DBState) (now : Nat),
      get_user_count db = 1 → get_user_count (init_database db now) = 1) := by
  refine ⟨?_, ?_, ?_, ?_⟩
  · intro db now h
    unfold init_database
    rw [if_neg]
    intro hlen
    exact h (List.length_eq_zero.mp hlen)
  · intro db now now2
    unfold init_database
    by_cases h : db.users.length = 0
    · rw [if_pos h]
      rw [if_neg]
      simp
    · rw [if_neg h, if_neg h]
  · intro now
    rfl
  · intro db now h
    unfold get_user_count at h
    unfold init_database get_user_count
    rw [if_neg (by omega)]
    exact h

/-- C6 witness: a store already holding one user is unchanged and keeps
count 1. -/
theorem claim_C6_init_idempotent_witness :
    init_database ⟨[], 5, [⟨1, pystr "admin", pystr "admin123", 0⟩], 2⟩ 3 =
      ⟨[], 5, [⟨1, pystr "admin", pystr "admin123", 0⟩], 2⟩ ∧
    get_user_count (init_database ⟨[], 5, [⟨1, pystr "admin", pystr "admin123", 0⟩], 2⟩ 3) = 1 :=
  ⟨claim_C6_init_idempotent.1 ⟨[], 5, [⟨1, pystr "admin", pystr "admin123", 0⟩], 2⟩ 3
      (by decide),
   claim_C6_init_idempotent.2.2.2 ⟨[], 5, [⟨1, pystr "admin", pystr "admin123", 0⟩], 2⟩ 3
      (by decide)⟩

/-- C7: delete_student returns whether a row was removed; on an absent id it
returns false and leaves the store unchanged, so deleting the same id twice
is safe — the second call always returns false on the already-deleted
store. -/
theorem claim_C7_delete_student (db : DBState) (student_id : Nat) :
    ((delete_student db student_id).1 = true ↔ ∃ r ∈ db.students, r.id = student_id) ∧
    ((¬ ∃ r ∈ db.students, r.id = student_id) → delete_student db student_id = (false, db)) ∧
    delete_student (delete_student db student_id).2 student_id =
      (false, (delete_student db student_id).2) := by
  have absent : ∀ d : DBState, (¬ ∃ r ∈ d.students, r.id = student_id) →
      delete_student d student_id = (false, d) := by
    intro d h
    unfold delete_student
    have hfil : d.students.filter (fun r => r.id == student_id) = [] := by
      rw [List.filter_eq_nil_iff]
      intro r hr
      simp only [beq_iff_eq]
      exact fun he => h ⟨r, hr, he⟩
    have hfil2 : d.students.filter (fun r => !(r.id == student_id)) = d.students := by
      rw [List.filter_eq_self]
      intro r hr
      simp only [Bool.not_eq_eq_eq_not, Bool.not_true, beq_eq_false_iff_ne]
      exact fun he => h ⟨r, hr, he⟩
    rw [hfil, hfil2]
    rfl
  refine ⟨?_, absent db, ?_⟩
  · unfold delete_student
    simp only [decide_eq_true_eq]
    rw [List.length_pos]
    constructor
    · intro h
      obtain ⟨r, hr⟩ := List.exists_mem_of_ne_nil _ h
      have := List.mem_filter.mp hr
      exact ⟨r, this.1, by simpa using this.2⟩
    · rintro ⟨r, hr, he⟩
      exact List.ne_nil_of_mem (List.mem_filter.mpr ⟨hr, by simp [he]⟩)
  · apply absent
    rintro ⟨r, hr, he⟩
    unfold delete_student at hr
    simp only at hr
    have := List.mem_filter.mp hr
    rw [Bool.not_eq_eq_eq_not, Bool.not_true, beq_eq_false_iff_ne] at this
    exact this.2 he

/-- C7 witness: both hypothesised parts at a concrete store that does not
contain the id 42. -/
theorem claim_C7_delete_student_witness :
    delete_student ⟨[⟨1, pystr "Ann", pystr "R1", pystr "Cse", pystr "a@b.cd", [], 0, 0⟩],
      2, [], 1⟩ 42 =
      (false, ⟨[⟨1, pystr "Ann", pystr "R1", pystr "Cse", pystr "a@b.cd", [], 0, 0⟩],
        2, [], 1⟩) :=
  (claim_C7_delete_student
    ⟨[⟨1, pystr "Ann", pystr "R1", pystr "Cse", pystr "a@b.cd", [], 0, 0⟩], 2, [], 1⟩
    42).2.1 (by decide)

/-- C8: on the empty student collection both report generators return
exactly the string "No students found.", whatever the generation time. -/
theorem claim_C8_empty_reports (now : PyStr) :
    generate_department_report [] now = pystr "No students found." ∧
    generate_summary_report [] now = pystr "No students found." :=
  ⟨rfl, rfl⟩

end StudentMgmt
